import Mathlib

/-!
Shallow embedding of the AI training/grading worker API of the edx-ora2
repository (`openassessment/assessment/api/ai_worker.py`) and of the
student-training step, together with proofs of the specification claims.

The database is embedded as a list of workflow records; `objects.get(uuid=...)`
becomes a lookup by UUID, and a raised exception becomes the `Except.error`
branch.  The ORM model classes (`AIGradingWorkflow`, `AITrainingWorkflow`,
`AIClassifierSet`, `StudentTrainingWorkflow`) are not part of the source
tree; their fields and methods are modelled from the spec's data-model
section, as noted on each definition.
-/

namespace EdxOra2

/-- A classifier set maps rubric criterion names to serialized classifier
blobs; embedded as an association list. -/
abbrev ClassifiersDict := List (String × String)

/-- Modelled from the spec: `AIClassifierSet` "maps rubric criterion names to
serialized classifier blobs; immutable once created".  The model class is not
under the source tree. -/
structure AIClassifierSet where
  classifiers_dict : ClassifiersDict
deriving Repr, DecidableEq

/-- Modelled from the spec: `AIGradingWorkflow` is "identified by a UUID;
references essay text, an algorithm identifier, and an associated classifier
set"; "completion records per-criterion integer scores and marks itself
complete exactly once".  The model class is not under the source tree. -/
structure AIGradingWorkflow where
  uuid : String
  essay_text : String
  algorithm_id : String
  classifier_set : Option AIClassifierSet
  is_complete : Bool
  criterion_scores : List (String × Int)
deriving Repr, DecidableEq

/-- Modelled from the spec: `AIGradingWorkflow.complete` (the model method
called by `create_assessment`) "records per-criterion integer scores and
marks itself complete". -/
def AIGradingWorkflow.complete (w : AIGradingWorkflow)
    (criterion_scores : List (String × Int)) : AIGradingWorkflow :=
  { w with is_complete := true, criterion_scores := criterion_scores }

/-- The grading-workflow table, embedded as a list of records. -/
abbrev GradingDB := List AIGradingWorkflow

/-- `AIGradingWorkflow.objects.get(uuid=...)`: the first stored workflow with
the given UUID, or `none` (`DoesNotExist`). -/
def findGradingWorkflow (db : GradingDB) (uuid : String) :
    Option AIGradingWorkflow :=
  db.find? (fun w => w.uuid == uuid)

/-- Saving an updated grading workflow back to the table: every record with
the given UUID is replaced. -/
def updateGradingWorkflow (db : GradingDB) (uuid : String)
    (w : AIGradingWorkflow) : GradingDB :=
  db.map (fun v => if v.uuid == uuid then w else v)

/-- The four exception classes of `openassessment.assessment.errors` that the
worker API raises. -/
inductive AIError where
  | AIGradingRequestError
  | AIGradingInternalError
  | AITrainingRequestError
  | AITrainingInternalError
deriving Repr, DecidableEq

/-- The dictionary returned by `get_grading_task_params`, with exactly the
keys `essay_text`, `classifier_set` and `algorithm_id`. -/
structure GradingTaskParams where
  essay_text : String
  classifier_set : ClassifiersDict
  algorithm_id : String
deriving Repr, DecidableEq

/-- `get_grading_task_params` from `ai_worker.py`: look the grading workflow
up by UUID (`DoesNotExist` becomes `AIGradingRequestError`); a missing
classifier set is a fatal `AIGradingInternalError`; otherwise return the
essay text, the classifier dictionary and the algorithm id. -/
def get_grading_task_params (db : GradingDB) (grading_workflow_uuid : String) :
    Except AIError GradingTaskParams :=
  match findGradingWorkflow db grading_workflow_uuid with
  | none => .error .AIGradingRequestError
  | some workflow =>
    match workflow.classifier_set with
    | none => .error .AIGradingInternalError
    | some classifier_set =>
      .ok { essay_text := workflow.essay_text,
            classifier_set := classifier_set.classifiers_dict,
            algorithm_id := workflow.algorithm_id }

/-- `create_assessment` from `ai_worker.py`: look the grading workflow up by
UUID (`DoesNotExist` becomes `AIGradingRequestError`); if the workflow is
already marked complete do nothing, otherwise complete it with the given
criterion scores.  The Python function returns `None`; the embedding returns
the updated table. -/
def create_assessment (db : GradingDB) (grading_workflow_uuid : String)
    (criterion_scores : List (String × Int)) : Except AIError GradingDB :=
  match findGradingWorkflow db grading_workflow_uuid with
  | none => .error .AIGradingRequestError
  | some workflow =>
    if workflow.is_complete then .ok db
    else .ok (updateGradingWorkflow db grading_workflow_uuid
      (workflow.complete criterion_scores))

/-! ### Basic lookup lemmas -/

theorem findGradingWorkflow_uuid {db : GradingDB} {uuid : String}
    {w : AIGradingWorkflow} (h : findGradingWorkflow db uuid = some w) :
    w.uuid = uuid := by
  have := List.find?_some h
  simpa using this

theorem findGradingWorkflow_update {db : GradingDB} {uuid : String}
    {w : AIGradingWorkflow} (h : findGradingWorkflow db uuid = some w)
    (w' : AIGradingWorkflow) (hw' : w'.uuid = uuid) :
    findGradingWorkflow (updateGradingWorkflow db uuid w') uuid = some w' := by
  have hw : w.uuid = uuid := findGradingWorkflow_uuid h
  unfold findGradingWorkflow updateGradingWorkflow
  rw [List.find?_map]
  have hpred : ((fun v : AIGradingWorkflow => v.uuid == uuid) ∘
      fun v => if v.uuid == uuid then w' else v)
      = (fun v : AIGradingWorkflow => v.uuid == uuid) := by
    funext v
    by_cases hv : v.uuid = uuid
    · simp [Function.comp, hv, hw']
    · simp [Function.comp, hv]
  rw [hpred]
  unfold findGradingWorkflow at h
  rw [h]
  simp [Option.map, hw]

/-! ### Training workflows -/

/-- A training example's `answer` field, which `get_training_task_params`
tolerates in two shapes: a dictionary (possibly holding an `answer` key)
or plain text. -/
inductive Answer where
  | dict (entries : List (String × String))
  | text (s : String)
deriving Repr, DecidableEq

/-- A rubric option selected for a training example: the name of its
criterion and the option's integer point value. -/
structure SelectedOption where
  criterion_name : String
  points : Int
deriving Repr, DecidableEq

/-- Modelled from the spec: a training example ("essay text + per-criterion
integer scores") as read by `get_training_task_params`: an `answer` and the
selected rubric options.  The model class is not under the source tree. -/
structure TrainingExample where
  answer : Answer
  options_selected : List SelectedOption
deriving Repr, DecidableEq

/-- Modelled from the spec: `AITrainingWorkflow` is "identified by a UUID;
holds training examples ... and an algorithm identifier; transitions from
incomplete to complete when a classifier set is attached".  The rubric's
criterion names are carried so that a supplied classifier set can be checked
against them.  The model class is not under the source tree. -/
structure AITrainingWorkflow where
  uuid : String
  algorithm_id : String
  training_examples : List TrainingExample
  rubric_criteria : List String
  is_complete : Bool
  classifier_set : Option AIClassifierSet
deriving Repr, DecidableEq

/-- The two model-layer exceptions of `AITrainingWorkflow.complete` that
`create_classifiers` distinguishes. -/
inductive TrainingCompleteError where
  | NoTrainingExamples
  | IncompleteClassifierSet
deriving Repr, DecidableEq

/-- A supplied classifier set covers the workflow's rubric exactly: it has an
entry for every rubric criterion name and no entry outside them. -/
def matchesRubric (rubric : List String) (classifier_set : ClassifiersDict) :
    Bool :=
  rubric.all (fun c => classifier_set.any (fun p => p.1 == c)) &&
  classifier_set.all (fun p => rubric.any (fun c => c == p.1))

/-- Modelled from the spec: `AITrainingWorkflow.complete` (the model method
called by `create_classifiers`) attaches a classifier set and marks the
workflow complete; it raises `NoTrainingExamples` when the workflow has no
training examples ("a training workflow cannot be marked complete without at
least one training example") and `IncompleteClassifierSet` when the supplied
set's criterion names do not match the workflow's rubric. -/
def AITrainingWorkflow.complete (w : AITrainingWorkflow)
    (classifier_set : ClassifiersDict) :
    Except TrainingCompleteError AITrainingWorkflow :=
  if w.training_examples.isEmpty then .error .NoTrainingExamples
  else if matchesRubric w.rubric_criteria classifier_set then
    .ok { w with is_complete := true,
                 classifier_set := some ⟨classifier_set⟩ }
  else .error .IncompleteClassifierSet

/-- The training-workflow table, embedded as a list of records. -/
abbrev TrainingDB := List AITrainingWorkflow

/-- `AITrainingWorkflow.objects.get(uuid=...)`: the first stored workflow
with the given UUID, or `none` (`DoesNotExist`). -/
def findTrainingWorkflow (db : TrainingDB) (uuid : String) :
    Option AITrainingWorkflow :=
  db.find? (fun w => w.uuid == uuid)

/-- Saving an updated training workflow back to the table. -/
def updateTrainingWorkflow (db : TrainingDB) (uuid : String)
    (w : AITrainingWorkflow) : TrainingDB :=
  db.map (fun v => if v.uuid == uuid then w else v)

/-- The text extracted from a training example's answer by
`get_training_task_params`: `answer.get('answer', '')` when the answer is a
dictionary, the answer itself otherwise. -/
def answerText (answer : Answer) : String :=
  match answer with
  | .dict entries => (entries.lookup "answer").getD ""
  | .text s => s

/-- A Python dictionary insertion on an association list: an existing key's
value is overwritten in place, a fresh key is appended. -/
def dictInsert (d : List (String × Int)) (k : String) (v : Int) :
    List (String × Int) :=
  if d.any (fun p => p.1 == k) then
    d.map (fun p => if p.1 == k then (k, v) else p)
  else d ++ [(k, v)]

/-- The `scores` dictionary comprehension of `get_training_task_params`:
`{option.criterion.name: option.points for option in example.options_selected}`,
built with Python dictionary semantics (later entries overwrite earlier ones
with the same key). -/
def scoresDict (options : List SelectedOption) : List (String × Int) :=
  options.foldl (fun d o => dictInsert d o.criterion_name o.points) []

/-- One entry of the `training_examples` list returned by
`get_training_task_params`: keys `text` and `scores`. -/
structure ExampleParams where
  text : String
  scores : List (String × Int)
deriving Repr, DecidableEq

/-- The per-example dictionary built by `get_training_task_params`. -/
def exampleParams (ex : TrainingExample) : ExampleParams :=
  { text := answerText ex.answer,
    scores := scoresDict ex.options_selected }

/-- The dictionary returned by `get_training_task_params`, with keys
`training_examples` and `algorithm_id`. -/
structure TrainingTaskParams where
  training_examples : List ExampleParams
  algorithm_id : String
deriving Repr, DecidableEq

/-- `get_training_task_params` from `ai_worker.py`: look the training
workflow up by UUID (`DoesNotExist` becomes `AITrainingRequestError`);
return the examples' texts and score dictionaries together with the
workflow's algorithm id. -/
def get_training_task_params (db : TrainingDB)
    (training_workflow_uuid : String) : Except AIError TrainingTaskParams :=
  match findTrainingWorkflow db training_workflow_uuid with
  | none => .error .AITrainingRequestError
  | some workflow =>
    .ok { training_examples := workflow.training_examples.map exampleParams,
          algorithm_id := workflow.algorithm_id }

/-- The outcome of a successful `create_classifiers` call: the updated table
and the warning log messages emitted. -/
structure CreateClassifiersResult where
  db : TrainingDB
  warnings : List String
deriving Repr, DecidableEq

/-- `create_classifiers` from `ai_worker.py`: look the training workflow up
by UUID (`DoesNotExist` becomes `AITrainingRequestError`); if the workflow
is already complete, log a warning and return immediately; otherwise call
`workflow.complete`, translating `NoTrainingExamples` to
`AITrainingInternalError` and `IncompleteClassifierSet` to
`AITrainingRequestError`. -/
def create_classifiers (db : TrainingDB) (training_workflow_uuid : String)
    (classifier_set : ClassifiersDict) :
    Except AIError CreateClassifiersResult :=
  match findTrainingWorkflow db training_workflow_uuid with
  | none => .error .AITrainingRequestError
  | some workflow =>
    if workflow.is_complete then
      .ok { db := db,
            warnings :=
              ["AI training workflow already has trained classifiers."] }
    else
      match workflow.complete classifier_set with
      | .error .NoTrainingExamples => .error .AITrainingInternalError
      | .error .IncompleteClassifierSet => .error .AITrainingRequestError
      | .ok workflow' =>
        .ok { db := updateTrainingWorkflow db training_workflow_uuid workflow',
              warnings := [] }

/-! ### Student training step -/

/-- A learner's (or the instructor's) selection of rubric options: criterion
name mapped to the chosen option's name. -/
abbrev OptionsSelected := List (String × String)

/-- Modelled from the spec: one instructor-provided training example of the
student-training step — a sample answer and the instructor-defined correct
option selection.  The model class is not under the source tree. -/
structure StudentTrainingExample where
  answer : String
  correct_options : OptionsSelected
deriving Repr, DecidableEq

/-- Modelled from the spec: `StudentTrainingWorkflow` is "per-learner,
per-problem state tracking how many training examples have been completed".
The model class is not under the source tree. -/
structure StudentTrainingWorkflow where
  examples : List StudentTrainingExample
  num_completed : Nat
deriving Repr, DecidableEq

/-- The problem's rubric for the student-training step: each criterion name
with the names of its options. -/
structure Rubric where
  criteria : List (String × List String)
deriving Repr, DecidableEq

/-- A submitted selection names valid criteria and options: every selected
pair is a rubric criterion with one of its options, and every rubric
criterion is covered. -/
def validOptions (rubric : Rubric) (sel : OptionsSelected) : Bool :=
  sel.all (fun p =>
    rubric.criteria.any (fun c => c.1 == p.1 && c.2.any (fun o => o == p.2)))
  && rubric.criteria.all (fun c => sel.any (fun p => p.1 == c.1))

/-- Two option selections agree as finite maps from criterion names to
option names. -/
def optionsMatch (correct sel : OptionsSelected) : Bool :=
  correct.all (fun p => sel.lookup p.1 == some p.2) &&
  sel.all (fun p => correct.lookup p.1 == some p.2)

/-- The JSON body answered by the `training_assess` handler: the `success`
and `correct` flags. -/
structure TrainingAssessResponse where
  success : Bool
  correct : Bool
deriving Repr, DecidableEq

/-- Modelled from the spec: the `training_assess` XBlock handler (not under
the source tree; its behaviour is specified by the data model — the workflow
"advances only when the learner's selected rubric options exactly match the
instructor-defined correct answer for the current example" — and by the test
suite `test_student_training.py`).  An invalid selection or a missing current
example answers `success = false`; a valid selection answers
`success = true`, with `correct = true` and the completed count advanced by
one exactly when the selection matches the instructor answer. -/
def training_assess (rubric : Rubric) (st : StudentTrainingWorkflow)
    (options_selected : OptionsSelected) :
    TrainingAssessResponse × StudentTrainingWorkflow :=
  if validOptions rubric options_selected then
    match st.examples[st.num_completed]? with
    | none => ({ success := false, correct := false }, st)
    | some ex =>
      if optionsMatch ex.correct_options options_selected then
        ({ success := true, correct := true },
         { st with num_completed := st.num_completed + 1 })
      else
        ({ success := true, correct := false }, st)
  else
    ({ success := false, correct := false }, st)

/-! ### Grading-task scheduling -/

/-- A grading task handed to the worker queue, carrying the classifier set it
was scheduled with (if any). -/
structure GradingTask where
  uuid : String
  classifier_set : Option AIClassifierSet
deriving Repr, DecidableEq

/-- Modelled from the spec: the scheduler state for one problem — whether
classifiers have been trained, the grading tasks handed to the worker queue,
and the grading tasks waiting for training to finish.  The scheduling code
is not under the source tree; the spec says grading tasks "submitted before
any classifiers were trained" are rescheduled by `create_classifiers`. -/
structure SchedulerState where
  classifiers_available : Option AIClassifierSet
  scheduled : List GradingTask
  waiting : List GradingTask
deriving Repr, DecidableEq

/-- Modelled from the spec: the scheduler's transitions.  A grading
submission is scheduled at once when a classifier set is available and parks
in the waiting pool otherwise; completing training attaches the classifier
set and reschedules every waiting task with it. -/
inductive SchedStep : SchedulerState → SchedulerState → Prop where
  | submitReady (s : SchedulerState) (uuid : String) (cs : AIClassifierSet)
      (h : s.classifiers_available = some cs) :
      SchedStep s { s with
        scheduled := { uuid := uuid, classifier_set := some cs } :: s.scheduled }
  | submitWaiting (s : SchedulerState) (uuid : String)
      (h : s.classifiers_available = none) :
      SchedStep s { s with
        waiting := { uuid := uuid, classifier_set := none } :: s.waiting }
  | completeTraining (s : SchedulerState) (cs : AIClassifierSet)
      (h : s.classifiers_available = none) :
      SchedStep s
        { classifiers_available := some cs,
          scheduled :=
            s.waiting.map (fun t => { t with classifier_set := some cs })
              ++ s.scheduled,
          waiting := [] }

/-- The scheduler's initial state: no classifiers, no tasks. -/
def initialSchedulerState : SchedulerState :=
  { classifiers_available := none, scheduled := [], waiting := [] }

/-- The states the scheduler can reach from the initial state. -/
inductive ReachableSched : SchedulerState → Prop where
  | init : ReachableSched initialSchedulerState
  | step (s s' : SchedulerState) (hs : ReachableSched s)
      (hstep : SchedStep s s') : ReachableSched s'

/-! ### Sample records used by the witnesses -/

/-- A grading workflow stored without a classifier set. -/
def gwNoSet : AIGradingWorkflow :=
  { uuid := "g1", essay_text := "essay one", algorithm_id := "ease",
    classifier_set := none, is_complete := false, criterion_scores := [] }

/-- A grading workflow stored with a classifier set, already complete. -/
def gwDone : AIGradingWorkflow :=
  { uuid := "g2", essay_text := "essay two", algorithm_id := "ease",
    classifier_set := some ⟨[("vocabulary", "blob")]⟩, is_complete := true,
    criterion_scores := [("vocabulary", 1)] }

/-- A sample training example whose answer is a plain string. -/
def texPlain : TrainingExample :=
  { answer := .text "sample answer",
    options_selected := [⟨"vocabulary", 1⟩, ⟨"grammar", 2⟩] }

/-- An incomplete training workflow holding one example. -/
def twOpen : AITrainingWorkflow :=
  { uuid := "t1", algorithm_id := "ease", training_examples := [texPlain],
    rubric_criteria := ["vocabulary", "grammar"], is_complete := false,
    classifier_set := none }

/-- A training workflow already marked complete. -/
def twDone : AITrainingWorkflow :=
  { twOpen with uuid := "t2", is_complete := true,
                classifier_set := some ⟨[("vocabulary", "blob")]⟩ }

/-- An incomplete training workflow with no training examples. -/
def twEmpty : AITrainingWorkflow :=
  { twOpen with uuid := "t3", training_examples := [] }

/-! ### Claims -/

/-- C1: for every grading workflow already marked complete,
`create_assessment` changes nothing and returns `None` (first conjunct);
and in general running `create_assessment` twice with the same arguments has
the same effect as running it once, so a workflow is marked complete exactly
once (second conjunct). -/
theorem create_assessment_idempotent (db : GradingDB) (uuid : String)
    (scores : List (String × Int)) (w : AIGradingWorkflow)
    (hfind : findGradingWorkflow db uuid = some w)
    (hc : w.is_complete = true) :
    create_assessment db uuid scores = .ok db ∧
    ∀ (db₀ db₁ : GradingDB) (scores₀ : List (String × Int)),
      create_assessment db₀ uuid scores₀ = .ok db₁ →
      create_assessment db₁ uuid scores₀ = .ok db₁ := by
  constructor
  · simp [create_assessment, hfind, hc]
  · intro db₀ db₁ scores₀ h₀
    cases hfind₀ : findGradingWorkflow db₀ uuid with
    | none => simp [create_assessment, hfind₀] at h₀
    | some w₀ =>
      by_cases hc₀ : w₀.is_complete
      · simp [create_assessment, hfind₀, hc₀] at h₀
        subst h₀
        simp [create_assessment, hfind₀, hc₀]
      · simp [create_assessment, hfind₀, hc₀] at h₀
        have huuid : (w₀.complete scores₀).uuid = uuid := by
          simpa [AIGradingWorkflow.complete] using
            findGradingWorkflow_uuid hfind₀
        have hfind₁ : findGradingWorkflow db₁ uuid
            = some (w₀.complete scores₀) := by
          rw [← h₀]
          exact findGradingWorkflow_update hfind₀ _ huuid
        have hc₁ : (w₀.complete scores₀).is_complete = true := rfl
        simp [create_assessment, hfind₁, hc₁]

/-- Witness for C1: a concrete table whose stored workflow is complete. -/
theorem create_assessment_idempotent_witness :
    create_assessment [gwDone] "g2" [("vocabulary", 2)] = .ok [gwDone] ∧
    ∀ (db₀ db₁ : GradingDB) (scores₀ : List (String × Int)),
      create_assessment db₀ "g2" scores₀ = .ok db₁ →
      create_assessment db₁ "g2" scores₀ = .ok db₁ :=
  create_assessment_idempotent [gwDone] "g2" [("vocabulary", 2)] gwDone
    (by simp [findGradingWorkflow, gwDone]) rfl

/-- C2: duplicate completion of a training workflow is a no-op with a
warning: when the stored workflow is already complete, `create_classifiers`
leaves the table unchanged, logs one warning, and returns without raising. -/
theorem create_classifiers_duplicate_noop (db : TrainingDB) (uuid : String)
    (classifier_set : ClassifiersDict) (w : AITrainingWorkflow)
    (hfind : findTrainingWorkflow db uuid = some w)
    (hc : w.is_complete = true) :
    create_classifiers db uuid classifier_set =
      .ok { db := db,
            warnings :=
              ["AI training workflow already has trained classifiers."] } := by
  simp [create_classifiers, hfind, hc]

/-- Witness for C2: a concrete table whose stored workflow is complete. -/
theorem create_classifiers_duplicate_noop_witness :
    create_classifiers [twDone] "t2" [("vocabulary", "blob2")] =
      .ok { db := [twDone],
            warnings :=
              ["AI training workflow already has trained classifiers."] } :=
  create_classifiers_duplicate_noop [twDone] "t2" [("vocabulary", "blob2")]
    twDone (by simp [findTrainingWorkflow, twDone, twOpen]) rfl

/-- C3: a grading workflow that exists but has no classifier set makes
`get_grading_task_params` raise `AIGradingInternalError`, the fatal variant,
not `AIGradingRequestError`, and no result is returned. -/
theorem get_grading_task_params_no_set (db : GradingDB) (uuid : String)
    (w : AIGradingWorkflow) (hfind : findGradingWorkflow db uuid = some w)
    (hcs : w.classifier_set = none) :
    get_grading_task_params db uuid = .error .AIGradingInternalError := by
  simp [get_grading_task_params, hfind, hcs]

/-- Witness for C3: a concrete table whose stored workflow lacks a
classifier set. -/
theorem get_grading_task_params_no_set_witness :
    get_grading_task_params [gwNoSet] "g1" = .error .AIGradingInternalError :=
  get_grading_task_params_no_set [gwNoSet] "g1" gwNoSet
    (by simp [findGradingWorkflow, gwNoSet]) rfl

/-- C4: an incomplete training workflow with zero training examples makes
`create_classifiers` raise `AITrainingInternalError` (propagated from the
`NoTrainingExamples` condition); the error branch returns no updated table,
so the workflow remains incomplete. -/
theorem create_classifiers_no_examples (db : TrainingDB) (uuid : String)
    (classifier_set : ClassifiersDict) (w : AITrainingWorkflow)
    (hfind : findTrainingWorkflow db uuid = some w)
    (hc : w.is_complete = false)
    (hex : w.training_examples = []) :
    create_classifiers db uuid classifier_set =
      .error .AITrainingInternalError := by
  simp [create_classifiers, hfind, hc, AITrainingWorkflow.complete, hex]

/-- Witness for C4: a concrete table whose stored workflow has no
examples. -/
theorem create_classifiers_no_examples_witness :
    create_classifiers [twEmpty] "t3" [("vocabulary", "blob")] =
      .error .AITrainingInternalError :=
  create_classifiers_no_examples [twEmpty] "t3" [("vocabulary", "blob")]
    twEmpty (by simp [findTrainingWorkflow, twEmpty, twOpen]) rfl rfl

/-- C5: a grading workflow that exists and has a classifier set makes
`get_grading_task_params` return exactly the essay text, the set's
criterion-to-serialized-classifier mapping and the algorithm id; the
function reads the table without modifying it. -/
theorem get_grading_task_params_ok (db : GradingDB) (uuid : String)
    (w : AIGradingWorkflow) (cs : AIClassifierSet)
    (hfind : findGradingWorkflow db uuid = some w)
    (hcs : w.classifier_set = some cs) :
    get_grading_task_params db uuid =
      .ok { essay_text := w.essay_text,
            classifier_set := cs.classifiers_dict,
            algorithm_id := w.algorithm_id } := by
  simp [get_grading_task_params, hfind, hcs]

/-- Witness for C5: a concrete table whose stored workflow has a classifier
set. -/
theorem get_grading_task_params_ok_witness :
    get_grading_task_params [gwDone] "g2" =
      .ok { essay_text := "essay two",
            classifier_set := [("vocabulary", "blob")],
            algorithm_id := "ease" } :=
  get_grading_task_params_ok [gwDone] "g2" gwDone ⟨[("vocabulary", "blob")]⟩
    (by simp [findGradingWorkflow, gwDone]) rfl

/-- C8: a UUID matching no stored workflow makes each of the four API
operations raise the request-error variant, never the internal-error
variant; every error branch returns no updated table, so all workflow state
is unchanged. -/
theorem unknown_uuid_request_error (gdb : GradingDB) (tdb : TrainingDB)
    (uuid : String) (scores : List (String × Int))
    (classifier_set : ClassifiersDict)
    (hg : findGradingWorkflow gdb uuid = none)
    (ht : findTrainingWorkflow tdb uuid = none) :
    get_grading_task_params gdb uuid = .error .AIGradingRequestError ∧
    create_assessment gdb uuid scores = .error .AIGradingRequestError ∧
    get_training_task_params tdb uuid = .error .AITrainingRequestError ∧
    create_classifiers tdb uuid classifier_set =
      .error .AITrainingRequestError := by
  refine ⟨?_, ?_, ?_, ?_⟩ <;>
    simp [get_grading_task_params, create_assessment,
      get_training_task_params, create_classifiers, hg, ht]

/-- Witness for C8: empty tables hold no workflow for any UUID. -/
theorem unknown_uuid_request_error_witness :
    get_grading_task_params [] "zzz" = .error .AIGradingRequestError ∧
    create_assessment [] "zzz" [] = .error .AIGradingRequestError ∧
    get_training_task_params [] "zzz" = .error .AITrainingRequestError ∧
    create_classifiers [] "zzz" [] = .error .AITrainingRequestError :=
  unknown_uuid_request_error [] [] "zzz" [] [] rfl rfl

/-- C10: when completing an incomplete training workflow fails with the
`IncompleteClassifierSet` condition (the supplied set's criterion names do
not match the workflow's rubric), `create_classifiers` raises
`AITrainingRequestError`, the caller-fault variant, not
`AITrainingInternalError`; the error branch returns no updated table, so
the workflow remains incomplete. -/
theorem create_classifiers_bad_set (db : TrainingDB) (uuid : String)
    (classifier_set : ClassifiersDict) (w : AITrainingWorkflow)
    (hfind : findTrainingWorkflow db uuid = some w)
    (hc : w.is_complete = false)
    (hcomp : w.complete classifier_set =
      .error .IncompleteClassifierSet) :
    create_classifiers db uuid classifier_set =
      .error .AITrainingRequestError := by
  simp [create_classifiers, hfind, hc, hcomp]

/-- Witness for C10: a set naming a criterion outside the rubric. -/
theorem create_classifiers_bad_set_witness :
    create_classifiers [twOpen] "t1" [("bananas", "blob")] =
      .error .AITrainingRequestError :=
  create_classifiers_bad_set [twOpen] "t1" [("bananas", "blob")] twOpen
    (by simp [findTrainingWorkflow, twOpen]) rfl
    (by simp [AITrainingWorkflow.complete, twOpen, texPlain, matchesRubric])

/-! ### Score-dictionary lemmas for C9 -/

theorem dictInsert_fresh (d : List (String × Int)) (k : String) (v : Int)
    (h : ∀ p ∈ d, p.1 ≠ k) : dictInsert d k v = d ++ [(k, v)] := by
  unfold dictInsert
  have hany : d.any (fun p => p.1 == k) = false := by
    rw [List.any_eq_false]
    intro p hp
    simpa using h p hp
  simp [hany]

theorem scoresDict_foldl_eq (options : List SelectedOption) :
    ∀ acc : List (String × Int),
    (∀ p ∈ acc, ∀ o ∈ options, p.1 ≠ o.criterion_name) →
    (options.map SelectedOption.criterion_name).Nodup →
    options.foldl (fun d o => dictInsert d o.criterion_name o.points) acc
      = acc ++ options.map (fun o => (o.criterion_name, o.points)) := by
  induction options with
  | nil => intro acc _ _; simp
  | cons o os ih =>
    intro acc hdis hnodup
    have hhead : o.criterion_name ∉ os.map SelectedOption.criterion_name :=
      (List.nodup_cons.mp (by simpa using hnodup)).1
    have htail : (os.map SelectedOption.criterion_name).Nodup :=
      (List.nodup_cons.mp (by simpa using hnodup)).2
    simp only [List.foldl_cons]
    rw [dictInsert_fresh _ _ _ (fun p hp => hdis p hp o (by simp))]
    rw [ih (acc ++ [(o.criterion_name, o.points)]) ?_ htail]
    · simp
    · intro p hp o' ho'
      rcases List.mem_append.mp hp with h1 | h2
      · exact hdis p h1 o' (List.mem_cons_of_mem o ho')
      · have hp2 : p = (o.criterion_name, o.points) := by simpa using h2
        subst hp2
        intro heq
        apply hhead
        have heq' : o.criterion_name = o'.criterion_name := heq
        rw [heq']
        exact List.mem_map_of_mem _ ho'

theorem scoresDict_eq_map (options : List SelectedOption)
    (hnodup : (options.map SelectedOption.criterion_name).Nodup) :
    scoresDict options = options.map (fun o => (o.criterion_name, o.points)) := by
  simpa using scoresDict_foldl_eq options [] (by simp) hnodup

theorem lookup_map_pair (options : List SelectedOption)
    (hnodup : (options.map SelectedOption.criterion_name).Nodup)
    (o : SelectedOption) (ho : o ∈ options) :
    (options.map (fun o => (o.criterion_name, o.points))).lookup
      o.criterion_name = some o.points := by
  induction options with
  | nil => cases ho
  | cons hd tl ih =>
    have hhead : hd.criterion_name ∉ tl.map SelectedOption.criterion_name :=
      (List.nodup_cons.mp (by simpa using hnodup)).1
    have htail : (tl.map SelectedOption.criterion_name).Nodup :=
      (List.nodup_cons.mp (by simpa using hnodup)).2
    rcases List.mem_cons.mp ho with rfl | htl
    · simp [List.lookup]
    · have hne : (o.criterion_name == hd.criterion_name) = false := by
        simp only [beq_eq_false_iff_ne, ne_eq]
        intro heq
        exact hhead (heq ▸ List.mem_map_of_mem _ htl)
      simp only [List.map_cons, List.lookup, hne]
      exact ih htail htl

theorem scoresDict_lookup (options : List SelectedOption)
    (hnodup : (options.map SelectedOption.criterion_name).Nodup)
    (o : SelectedOption) (ho : o ∈ options) :
    (scoresDict options).lookup o.criterion_name = some o.points := by
  rw [scoresDict_eq_map options hnodup]
  exact lookup_map_pair options hnodup o ho

/-- C9: for every training workflow that exists (its examples carrying
per-criterion scores, i.e. one selected option per criterion),
`get_training_task_params` returns the examples mapped through
`exampleParams` together with the workflow's algorithm id, where the `text`
field tolerates both answer shapes — `answer['answer']` (defaulting to the
empty string) for a dictionary, the answer itself for plain text — and each
example's `scores` field maps every selected option's criterion name to that
option's integer points. -/
theorem get_training_task_params_shapes (db : TrainingDB) (uuid : String)
    (w : AITrainingWorkflow)
    (hfind : findTrainingWorkflow db uuid = some w)
    (hnodup : ∀ ex ∈ w.training_examples,
      (ex.options_selected.map SelectedOption.criterion_name).Nodup) :
    get_training_task_params db uuid =
      .ok { training_examples := w.training_examples.map exampleParams,
            algorithm_id := w.algorithm_id } ∧
    (∀ ex ∈ w.training_examples, ∀ entries, ex.answer = .dict entries →
      (exampleParams ex).text = ((entries.lookup "answer").getD "")) ∧
    (∀ ex ∈ w.training_examples, ∀ s, ex.answer = .text s →
      (exampleParams ex).text = s) ∧
    (∀ ex ∈ w.training_examples, ∀ o ∈ ex.options_selected,
      (exampleParams ex).scores.lookup o.criterion_name = some o.points) := by
  refine ⟨?_, ?_, ?_, ?_⟩
  · simp [get_training_task_params, hfind]
  · intro ex _ entries hans
    simp [exampleParams, answerText, hans]
  · intro ex _ s hans
    simp [exampleParams, answerText, hans]
  · intro ex hex o ho
    exact scoresDict_lookup ex.options_selected (hnodup ex hex) o ho

/-- Witness for C9: a table with one workflow holding one plain-text
example. -/
theorem get_training_task_params_shapes_witness :
    get_training_task_params [twOpen] "t1" =
      .ok { training_examples := twOpen.training_examples.map exampleParams,
            algorithm_id := twOpen.algorithm_id } ∧
    (∀ ex ∈ twOpen.training_examples, ∀ entries, ex.answer = .dict entries →
      (exampleParams ex).text = ((entries.lookup "answer").getD "")) ∧
    (∀ ex ∈ twOpen.training_examples, ∀ s, ex.answer = .text s →
      (exampleParams ex).text = s) ∧
    (∀ ex ∈ twOpen.training_examples, ∀ o ∈ ex.options_selected,
      (exampleParams ex).scores.lookup o.criterion_name = some o.points) :=
  get_training_task_params_shapes [twOpen] "t1" twOpen
    (by simp [findTrainingWorkflow, twOpen])
    (by intro ex hex
        simp only [twOpen, texPlain] at hex
        simp at hex
        subst hex
        simp [texPlain])

/-! ### Student-training and scheduling claims -/

/-- C6: the student training step advances exactly when the learner's
selection matches the instructor answer.  For a valid selection over the
rubric and a current example in range: a matching selection answers
`success = true`, `correct = true` and advances the completed count by one;
a non-matching (but valid) selection answers `success = true`,
`correct = false` and leaves the count unchanged. -/
theorem training_assess_advance (rubric : Rubric)
    (st : StudentTrainingWorkflow) (sel : OptionsSelected)
    (ex : StudentTrainingExample)
    (hex : st.examples[st.num_completed]? = some ex)
    (hvalid : validOptions rubric sel = true) :
    (optionsMatch ex.correct_options sel = true →
      training_assess rubric st sel =
        ({ success := true, correct := true },
         { st with num_completed := st.num_completed + 1 })) ∧
    (optionsMatch ex.correct_options sel = false →
      training_assess rubric st sel =
        ({ success := true, correct := false }, st)) := by
  constructor <;> intro hm <;> simp [training_assess, hvalid, hex, hm]

/-- The rubric of the test scenario: Vocabulary and Grammar, each rated
Poor, Good or Excellent. -/
def sampleRubric : Rubric :=
  { criteria := [("Vocabulary", ["Poor", "Good", "Excellent"]),
                 ("Grammar", ["Poor", "Good", "Excellent"])] }

/-- The first training example of the test scenario: the instructor rated
Vocabulary Good and Grammar Excellent. -/
def sampleExample : StudentTrainingExample :=
  { answer := "sample essay",
    correct_options := [("Vocabulary", "Good"), ("Grammar", "Excellent")] }

/-- A learner who has not yet completed any example. -/
def sampleStudentWorkflow : StudentTrainingWorkflow :=
  { examples := [sampleExample], num_completed := 0 }

/-- Witness for C6: the matching selection of the test scenario. -/
theorem training_assess_advance_witness :
    (optionsMatch sampleExample.correct_options
        [("Vocabulary", "Good"), ("Grammar", "Excellent")] = true →
      training_assess sampleRubric sampleStudentWorkflow
          [("Vocabulary", "Good"), ("Grammar", "Excellent")] =
        ({ success := true, correct := true },
         { sampleStudentWorkflow with
             num_completed := sampleStudentWorkflow.num_completed + 1 })) ∧
    (optionsMatch sampleExample.correct_options
        [("Vocabulary", "Good"), ("Grammar", "Excellent")] = false →
      training_assess sampleRubric sampleStudentWorkflow
          [("Vocabulary", "Good"), ("Grammar", "Excellent")] =
        ({ success := true, correct := false }, sampleStudentWorkflow)) :=
  training_assess_advance sampleRubric sampleStudentWorkflow
    [("Vocabulary", "Good"), ("Grammar", "Excellent")] sampleExample
    (by simp [sampleStudentWorkflow]) (by decide)

/-- C7: in every reachable scheduler state, every grading task handed to the
worker queue carries an attached classifier set (first conjunct, so a task
scheduled directly or rescheduled after training always has one); waiting
tasks exist only while training is pending (second conjunct); and from any
state with training pending, a training completion step reschedules every
waiting task with the newly attached set (third conjunct). -/
theorem scheduled_tasks_have_classifiers (s : SchedulerState)
    (hs : ReachableSched s) :
    (∀ t ∈ s.scheduled, ∃ cs, t.classifier_set = some cs) ∧
    (s.waiting ≠ [] → s.classifiers_available = none) ∧
    (s.classifiers_available = none → ∀ cs : AIClassifierSet,
      ∃ s', SchedStep s s' ∧ s'.waiting = [] ∧
        ∀ t ∈ s.waiting,
          { uuid := t.uuid, classifier_set := some cs } ∈ s'.scheduled) := by
  have hstep3 : ∀ s₀ : SchedulerState, s₀.classifiers_available = none →
      ∀ cs : AIClassifierSet, ∃ s', SchedStep s₀ s' ∧ s'.waiting = [] ∧
        ∀ t ∈ s₀.waiting,
          { uuid := t.uuid, classifier_set := some cs } ∈ s'.scheduled := by
    intro s₀ h₀ cs
    refine ⟨_, SchedStep.completeTraining s₀ cs h₀, rfl, ?_⟩
    intro t ht
    apply List.mem_append_left
    exact List.mem_map_of_mem (fun t => { t with classifier_set := some cs }) ht
  induction hs with
  | init =>
    exact ⟨by simp [initialSchedulerState], by simp [initialSchedulerState],
      fun _ => hstep3 initialSchedulerState rfl⟩
  | step s₀ s₁ hs₀ hstep ih =>
    refine ⟨?_, ?_, hstep3 s₁⟩
    · cases hstep with
      | submitReady uuid cs h =>
        intro t ht
        rcases List.mem_cons.mp ht with rfl | ht'
        · exact ⟨cs, rfl⟩
        · exact ih.1 t ht'
      | submitWaiting uuid h =>
        intro t ht
        exact ih.1 t ht
      | completeTraining cs h =>
        intro t ht
        rcases List.mem_append.mp ht with hmem | ht'
        · rcases List.mem_map.mp hmem with ⟨t₀, _, rfl⟩
          exact ⟨cs, rfl⟩
        · exact ih.1 t ht'
    · cases hstep with
      | submitReady uuid cs h =>
        intro hw
        have hww : s₀.waiting ≠ [] := hw
        have hnone := ih.2.1 hww
        rw [hnone] at h
        cases h
      | submitWaiting uuid h =>
        intro _
        exact h
      | completeTraining cs h =>
        intro hw
        cases hw rfl

/-- Witness for C7: the state reached by training completion followed by a
scheduled submission. -/
theorem scheduled_tasks_have_classifiers_witness :
    (∀ t ∈ ({ classifiers_available := some ⟨[("vocabulary", "blob")]⟩,
              scheduled := [{ uuid := "g9",
                              classifier_set := some ⟨[("vocabulary", "blob")]⟩ }],
              waiting := [] } : SchedulerState).scheduled,
        ∃ cs, t.classifier_set = some cs) ∧
    (({ classifiers_available := some ⟨[("vocabulary", "blob")]⟩,
        scheduled := [{ uuid := "g9",
                        classifier_set := some ⟨[("vocabulary", "blob")]⟩ }],
        waiting := [] } : SchedulerState).waiting ≠ [] →
      ({ classifiers_available := some ⟨[("vocabulary", "blob")]⟩,
         scheduled := [{ uuid := "g9",
                         classifier_set := some ⟨[("vocabulary", "blob")]⟩ }],
         waiting := [] } : SchedulerState).classifiers_available = none) ∧
    (({ classifiers_available := some ⟨[("vocabulary", "blob")]⟩,
        scheduled := [{ uuid := "g9",
                        classifier_set := some ⟨[("vocabulary", "blob")]⟩ }],
        waiting := [] } : SchedulerState).classifiers_available = none →
      ∀ cs : AIClassifierSet,
      ∃ s', SchedStep { classifiers_available := some ⟨[("vocabulary", "blob")]⟩,
                        scheduled := [{ uuid := "g9",
                                        classifier_set :=
                                          some ⟨[("vocabulary", "blob")]⟩ }],
                        waiting := [] } s' ∧ s'.waiting = [] ∧
        ∀ t ∈ ({ classifiers_available := some ⟨[("vocabulary", "blob")]⟩,
                 scheduled := [{ uuid := "g9",
                                 classifier_set :=
                                   some ⟨[("vocabulary", "blob")]⟩ }],
                 waiting := [] } : SchedulerState).waiting,
          { uuid := t.uuid, classifier_set := some cs } ∈ s'.scheduled) :=
  scheduled_tasks_have_classifiers _
    (ReachableSched.step _ _
      (ReachableSched.step _ _ ReachableSched.init
        (SchedStep.completeTraining initialSchedulerState
          ⟨[("vocabulary", "blob")]⟩ rfl))
      (SchedStep.submitReady _ "g9" ⟨[("vocabulary", "blob")]⟩ rfl))

end EdxOra2
